import Mathlib

/-!
A shallow embedding of the interactive front-end logic of the repository:
the pointer-tilt card component (src/client/src/components/BenefitCard.tsx)
and the profile page's display-record selection and cached-record loading
(src/client/src/pages/profile.tsx).

JavaScript numbers are modelled by `JSNum`: an exact rational when finite,
plus NaN and the signed infinities, so that the unguarded divisions of the
tilt computation keep their JavaScript semantics (0 / 0 is NaN and a / 0 is
a signed infinity for a nonzero a).
-/

namespace Wiralis

/-- A JavaScript number: a finite value (modelled exactly as a rational),
NaN, or a signed infinity (`inf true` is positive infinity). -/
inductive JSNum where
  | fin (q : ℚ)
  | nan
  | inf (pos : Bool)
  deriving DecidableEq

/-- JavaScript division of two finite numbers: the rational quotient when
the divisor is nonzero; 0 / 0 is NaN, and a / 0 for nonzero a is a signed
infinity (the divisors of the tilt computation are halves of non-negative
DOM rect extents, hence positive zeros). -/
def jsDiv (a b : ℚ) : JSNum :=
  if b = 0 then (if a = 0 then .nan else .inf (decide (0 < a))) else .fin (a / b)

/-- JavaScript multiplication of a number by a finite constant. -/
def jsMulConst (v : JSNum) (c : ℚ) : JSNum :=
  match v with
  | .fin q => .fin (q * c)
  | .nan => .nan
  | .inf p => if c = 0 then .nan else .inf (p == decide (0 < c))

/-- JavaScript truthiness of a number: 0 and NaN are falsy, every other
number (the infinities included) is truthy. -/
def jsTruthy : JSNum → Bool
  | .fin q => decide (q ≠ 0)
  | .nan => false
  | .inf _ => true

/-- The tilt state of one card instance, initialised by
`useState` to x = 0, y = 0. -/
structure Tilt where
  x : JSNum
  y : JSNum
  deriving DecidableEq

/-- The bounding client rect of the card element, as
`getBoundingClientRect` reports it. -/
structure Rect where
  left : ℚ
  top : ℚ
  width : ℚ
  height : ℚ
  deriving DecidableEq

/-- `handleMouseMove` of BenefitCard. With no `onClick` prop the handler
returns at once and the tilt state is untouched. Otherwise the pointer
position relative to the card is normalised against the half-extents of
the card and scaled to 8 degrees; the source has no clamping of the sample
and no guard on the divisors. -/
def handleMouseMove : Bool → Rect → ℚ → ℚ → Tilt → Tilt
  | false, _, _, _, tilt => tilt
  | true, rect, clientX, clientY, _ =>
    let x := clientX - rect.left
    let y := clientY - rect.top
    let centerX := rect.width / 2
    let centerY := rect.height / 2
    let tiltX := jsMulConst (jsDiv (y - centerY) centerY) (-8)
    let tiltY := jsMulConst (jsDiv (x - centerX) centerX) 8
    ⟨tiltX, tiltY⟩

/-- `handleMouseLeave` of BenefitCard: unconditionally resets the tilt
state to the neutral pair. -/
def handleMouseLeave (_tilt : Tilt) : Tilt :=
  ⟨.fin 0, .fin 0⟩

/-- The scale factor inside the card's transform template:
`scale(tilt.x || tilt.y ? 1.02 : 1)`. The condition is JavaScript
truthiness of the two components. -/
def scaleOf (tilt : Tilt) : ℚ :=
  if jsTruthy tilt.x || jsTruthy tilt.y then 1.02 else 1

/-- The transform the card renders when one is applied: rotateX by the
tilt x component, rotateY by the tilt y component, and the derived scale. -/
structure TransformState where
  rotateX : JSNum
  rotateY : JSNum
  scale : ℚ
  deriving DecidableEq

/-- The constant box-shadow value applied to interactive cards. -/
def boxShadowValue : String :=
  "0 10px 40px rgba(139, 92, 246, 0.2), inset 0 1px 0 rgba(255, 255, 255, 0.1)"

/-- The inline style of the card: the transform and the box shadow are set
only when an `onClick` prop is registered and are `undefined` (here
`none`) otherwise. -/
def cardStyle (hasOnClick : Bool) (tilt : Tilt) : Option TransformState × Option String :=
  (if hasOnClick then some ⟨tilt.x, tilt.y, scaleOf tilt⟩ else none,
   if hasOnClick then some boxShadowValue else none)

/-- The profile record of the profile page (interface WiralisUser). -/
structure WiralisUser where
  id : String
  telegramId : Int
  nickname : String
  username : Option String
  quote : Option String
  botId : Option String
  registeredAt : String
  deriving DecidableEq

/-- `displayUser = user || localUser`: the live lookup result when it is
set (a defined object is always truthy), the locally cached record
otherwise. -/
def displayUser (user localUser : Option WiralisUser) : Option WiralisUser :=
  match user with
  | some u => some u
  | none => localUser

/-- The main region of the profile page: a skeleton while the query loads,
an error card when it failed, the profile card for `displayUser` when one
is available, and nothing otherwise. -/
inductive MainView where
  | skeleton
  | errorCard
  | profileCard (u : WiralisUser)
  | empty
  deriving DecidableEq

/-- The branch structure of the profile page's main region:
`isLoading ? skeleton : error ? errorCard : displayUser ? card : null`. -/
def profileMain (isLoading hasError : Bool) (user localUser : Option WiralisUser) : MainView :=
  if isLoading then .skeleton
  else if hasError then .errorCard
  else
    match displayUser user localUser with
    | some u => .profileCard u
    | none => .empty

/-- The initial effect reading the cached record: `localStorage.getItem`
may find nothing; a found string goes through `JSON.parse` (modelled as a
caller-supplied fallible parse) inside a try/catch, and a parse exception
is caught, leaving the `localUser` state at its initial `none`. -/
def loadLocalUser (parse : String → Except String WiralisUser)
    (saved : Option String) : Option WiralisUser :=
  match saved with
  | none => none
  | some s =>
    match parse s with
    | .ok u => some u
    | .error _ => none

/-- A JavaScript number that is finite and of magnitude at most `m`. -/
def finiteWithin (v : JSNum) (m : ℚ) : Prop :=
  match v with
  | .fin q => |q| ≤ m
  | _ => False

/-- A JavaScript number that is finite and lies in the closed interval
from `lo` to `hi`. -/
def withinRange (v : JSNum) (lo hi : ℚ) : Prop :=
  match v with
  | .fin q => lo ≤ q ∧ q ≤ hi
  | _ => False

/-- On a positive-size rect the move handler evaluates to the two finite
normalised-and-scaled components. -/
theorem handleMouseMove_pos (rect : Rect) (cx cy : ℚ) (prev : Tilt)
    (hw : 0 < rect.width) (hh : 0 < rect.height) :
    handleMouseMove true rect cx cy prev =
      ⟨.fin ((cy - rect.top - rect.height / 2) / (rect.height / 2) * (-8)),
       .fin ((cx - rect.left - rect.width / 2) / (rect.width / 2) * 8)⟩ := by
  have hcx : rect.width / 2 ≠ 0 := by positivity
  have hcy : rect.height / 2 ≠ 0 := by positivity
  simp [handleMouseMove, jsDiv, jsMulConst, hcx, hcy]

/-- A coordinate inside a span of length twice `c` normalises to the
interval from -1 to 1. -/
theorem norm_bounds (c p : ℚ) (hc : 0 < c) (h0 : 0 ≤ p) (h2 : p ≤ 2 * c) :
    -1 ≤ (p - c) / c ∧ (p - c) / c ≤ 1 := by
  constructor
  · rw [le_div_iff₀ hc]
    linarith
  · rw [div_le_one hc]
    linarith

/-- C1 as frozen is false on the code: the sample is not clamped, so a
pointer 400 pixels into a 200-pixel-wide surface tilts the card by 24
degrees, beyond the 8-degree bound. -/
theorem tilt_bound_outside_counterexample :
    handleMouseMove true ⟨0, 0, 200, 100⟩ 400 50 ⟨.fin 0, .fin 0⟩ = ⟨.fin 0, .fin 24⟩
    ∧ ¬ finiteWithin (JSNum.fin 24) 8 := by
  constructor
  · norm_num [handleMouseMove, jsDiv, jsMulConst]
  · norm_num [finiteWithin]

/-- C1 (amended): for every positive surface size and every sample within
the surface bounds, both tilt components are finite and of magnitude at
most 8 degrees. -/
theorem tilt_finite_bounded_within (rect : Rect) (cx cy : ℚ) (prev : Tilt)
    (hw : 0 < rect.width) (hh : 0 < rect.height)
    (hx0 : rect.left ≤ cx) (hx1 : cx ≤ rect.left + rect.width)
    (hy0 : rect.top ≤ cy) (hy1 : cy ≤ rect.top + rect.height) :
    finiteWithin (handleMouseMove true rect cx cy prev).x 8
    ∧ finiteWithin (handleMouseMove true rect cx cy prev).y 8 := by
  have hx := norm_bounds (rect.width / 2) (cx - rect.left)
    (by linarith) (by linarith) (by linarith)
  have hy := norm_bounds (rect.height / 2) (cy - rect.top)
    (by linarith) (by linarith) (by linarith)
  rw [handleMouseMove_pos rect cx cy prev hw hh]
  constructor
  · show |(cy - rect.top - rect.height / 2) / (rect.height / 2) * (-8)| ≤ 8
    rw [abs_le]
    exact ⟨by linarith [hy.2], by linarith [hy.1]⟩
  · show |(cx - rect.left - rect.width / 2) / (rect.width / 2) * 8| ≤ 8
    rw [abs_le]
    exact ⟨by linarith [hx.1], by linarith [hx.2]⟩

/-- Witness for C1 (amended) at a 200 by 100 surface and the in-bounds
sample (150, 75). -/
theorem tilt_finite_bounded_within_check :
    finiteWithin (handleMouseMove true ⟨0, 0, 200, 100⟩ 150 75 ⟨.fin 0, .fin 0⟩).x 8
    ∧ finiteWithin (handleMouseMove true ⟨0, 0, 200, 100⟩ 150 75 ⟨.fin 0, .fin 0⟩).y 8 :=
  tilt_finite_bounded_within ⟨0, 0, 200, 100⟩ 150 75 ⟨.fin 0, .fin 0⟩
    (by norm_num) (by norm_num) (by norm_num) (by norm_num) (by norm_num) (by norm_num)

/-- C2: the divisions of the move handler are not guarded. On a zero-width
surface the sample (0, 50) makes the x normalisation 0 / 0, so the second
tilt component is NaN and the output is not the neutral pair. -/
theorem tilt_degenerate_nan :
    handleMouseMove true ⟨0, 0, 0, 100⟩ 0 50 ⟨.fin 0, .fin 0⟩ = ⟨.fin 0, .nan⟩
    ∧ handleMouseMove true ⟨0, 0, 0, 100⟩ 0 50 ⟨.fin 0, .fin 0⟩ ≠ ⟨.fin 0, .fin 0⟩ := by
  constructor
  · norm_num [handleMouseMove, jsDiv, jsMulConst]
  · norm_num [handleMouseMove, jsDiv, jsMulConst]
    decide

/-- C3: on a positive-size surface the move handler computes exactly the
spec's normalisation formula, and the scenario samples on a 200 by 100
surface evaluate to (-8, 8), (8, -8) and (0, 0). -/
theorem handleMouseMove_formula (w h x y : ℚ) (prev : Tilt) (hw : 0 < w) (hh : 0 < h) :
    handleMouseMove true ⟨0, 0, w, h⟩ x y prev =
      ⟨.fin ((y - h / 2) / (h / 2) * (-8)), .fin ((x - w / 2) / (w / 2) * 8)⟩
    ∧ handleMouseMove true ⟨0, 0, 200, 100⟩ 200 100 prev = ⟨.fin (-8), .fin 8⟩
    ∧ handleMouseMove true ⟨0, 0, 200, 100⟩ 0 0 prev = ⟨.fin 8, .fin (-8)⟩
    ∧ handleMouseMove true ⟨0, 0, 200, 100⟩ 100 50 prev = ⟨.fin 0, .fin 0⟩ := by
  refine ⟨?_, ?_, ?_, ?_⟩
  · rw [handleMouseMove_pos ⟨0, 0, w, h⟩ x y prev hw hh]
    norm_num
  · norm_num [handleMouseMove, jsDiv, jsMulConst]
  · norm_num [handleMouseMove, jsDiv, jsMulConst]
  · norm_num [handleMouseMove, jsDiv, jsMulConst]

/-- Witness for C3: the first scenario, instantiated from the formula
theorem at the 200 by 100 surface. -/
theorem handleMouseMove_formula_check :
    handleMouseMove true ⟨0, 0, 200, 100⟩ 200 100 ⟨.fin 0, .fin 0⟩ = ⟨.fin (-8), .fin 8⟩ :=
  (handleMouseMove_formula 200 100 200 100 ⟨.fin 0, .fin 0⟩ (by norm_num) (by norm_num)).2.1

/-- C5: for every positive surface size and every sample within the
surface bounds, both tilt components lie in the interval from -8 to 8. -/
theorem tilt_range_within (rect : Rect) (cx cy : ℚ) (prev : Tilt)
    (hw : 0 < rect.width) (hh : 0 < rect.height)
    (hx0 : rect.left ≤ cx) (hx1 : cx ≤ rect.left + rect.width)
    (hy0 : rect.top ≤ cy) (hy1 : cy ≤ rect.top + rect.height) :
    withinRange (handleMouseMove true rect cx cy prev).x (-8) 8
    ∧ withinRange (handleMouseMove true rect cx cy prev).y (-8) 8 := by
  have hx := norm_bounds (rect.width / 2) (cx - rect.left)
    (by linarith) (by linarith) (by linarith)
  have hy := norm_bounds (rect.height / 2) (cy - rect.top)
    (by linarith) (by linarith) (by linarith)
  rw [handleMouseMove_pos rect cx cy prev hw hh]
  constructor
  · show -8 ≤ (cy - rect.top - rect.height / 2) / (rect.height / 2) * (-8)
      ∧ (cy - rect.top - rect.height / 2) / (rect.height / 2) * (-8) ≤ 8
    exact ⟨by linarith [hy.2], by linarith [hy.1]⟩
  · show -8 ≤ (cx - rect.left - rect.width / 2) / (rect.width / 2) * 8
      ∧ (cx - rect.left - rect.width / 2) / (rect.width / 2) * 8 ≤ 8
    exact ⟨by linarith [hx.1], by linarith [hx.2]⟩

/-- Witness for C5 at a 200 by 100 surface placed at (10, 20) and the
in-bounds sample (110, 70). -/
theorem tilt_range_within_check :
    withinRange (handleMouseMove true ⟨10, 20, 200, 100⟩ 110 70 ⟨.fin 0, .fin 0⟩).x (-8) 8
    ∧ withinRange (handleMouseMove true ⟨10, 20, 200, 100⟩ 110 70 ⟨.fin 0, .fin 0⟩).y (-8) 8 :=
  tilt_range_within ⟨10, 20, 200, 100⟩ 110 70 ⟨.fin 0, .fin 0⟩
    (by norm_num) (by norm_num) (by norm_num) (by norm_num) (by norm_num) (by norm_num)

/-- C6: with no onClick prop registered the move handler returns the tilt
state unchanged, for every rect, sample and prior state. -/
theorem handleMouseMove_noClick_noop (rect : Rect) (cx cy : ℚ) (prev : Tilt) :
    handleMouseMove false rect cx cy prev = prev := rfl

/-- C7 as frozen is false on the code: the scale condition is JavaScript
truthiness, under which NaN is falsy, so the tilt pair (NaN, 0) is not
(0, 0) yet its scale is exactly 1. -/
theorem scaleOf_nan_counterexample :
    scaleOf ⟨.nan, .fin 0⟩ = 1 ∧ (⟨.nan, .fin 0⟩ : Tilt) ≠ ⟨.fin 0, .fin 0⟩ := by
  constructor
  · norm_num [scaleOf, jsTruthy]
  · decide

/-- C7 (amended): the scale is exactly 1 when both tilt components are
falsy (zero or NaN) and exactly 1.02 otherwise; restricted to finite tilt
pairs, the scale is 1 exactly at (0, 0) and 1.02 otherwise. -/
theorem scaleOf_spec (t : Tilt) (qx qy : ℚ) :
    (scaleOf t = 1 ↔ (jsTruthy t.x = false ∧ jsTruthy t.y = false))
    ∧ (scaleOf t = 1 ∨ scaleOf t = 1.02)
    ∧ (scaleOf ⟨.fin qx, .fin qy⟩ = 1 ↔ (qx = 0 ∧ qy = 0))
    ∧ (scaleOf ⟨.fin qx, .fin qy⟩ = 1.02 ↔ ¬(qx = 0 ∧ qy = 0)) := by
  refine ⟨?_, ?_, ?_, ?_⟩
  · unfold scaleOf
    cases hx : jsTruthy t.x <;> cases hy : jsTruthy t.y
    all_goals norm_num
  · unfold scaleOf
    cases hx : jsTruthy t.x <;> cases hy : jsTruthy t.y
    all_goals norm_num
  · unfold scaleOf jsTruthy
    by_cases hx : qx = 0 <;> by_cases hy : qy = 0 <;> simp [hx, hy] <;> norm_num
  · unfold scaleOf jsTruthy
    by_cases hx : qx = 0 <;> by_cases hy : qy = 0 <;> simp [hx, hy] <;> norm_num

/-- C8: the leave handler resets the tilt state to (0, 0) unconditionally,
and a second call in a row yields (0, 0) again. -/
theorem handleMouseLeave_resets (prev : Tilt) :
    handleMouseLeave prev = ⟨.fin 0, .fin 0⟩
    ∧ handleMouseLeave (handleMouseLeave prev) = ⟨.fin 0, .fin 0⟩ :=
  ⟨rfl, rfl⟩

/-- C9: with no onClick prop registered both inline styles are undefined,
for every tilt state. -/
theorem cardStyle_noClick (tilt : Tilt) :
    cardStyle false tilt = (none, none) := rfl

/-- C4: displayUser is the live record whenever the lookup has produced
one, and falls back to the cached record exactly when the live result is
absent; in the settled success state the page renders the live record. -/
theorem displayUser_spec (u : WiralisUser) (localUser : Option WiralisUser) :
    displayUser (some u) localUser = some u
    ∧ displayUser none localUser = localUser
    ∧ profileMain false false (some u) localUser = .profileCard u :=
  ⟨rfl, rfl, rfl⟩

/-- C10: a cached string whose parse throws is caught, the local record is
left at none, and the page still renders (the empty branch, no crash). -/
theorem loadLocalUser_parse_error (parse : String → Except String WiralisUser)
    (s msg : String) (hp : parse s = .error msg) :
    loadLocalUser parse (some s) = none
    ∧ profileMain false false none (loadLocalUser parse (some s)) = .empty := by
  have h1 : loadLocalUser parse (some s) = none := by
    simp [loadLocalUser, hp]
  refine ⟨h1, ?_⟩
  rw [h1]
  rfl

/-- Witness for C10: a parse that always throws leaves the local record at
none on the cached string "not json". -/
theorem loadLocalUser_parse_error_check :
    loadLocalUser (fun _ => .error "SyntaxError") (some "not json") = none
    ∧ profileMain false false none
        (loadLocalUser (fun _ => .error "SyntaxError") (some "not json")) = .empty :=
  loadLocalUser_parse_error (fun _ => .error "SyntaxError") "not json" "SyntaxError" rfl

end Wiralis
